import Mathlib

/-!
Shallow embedding of `src/nx.py` ("Switch One" pygame GUI simulation).

The program is a single event loop over module-level mutable state.  We model
the state as a record `SimState`, each event handler of the main loop as a
function `SimState → SimState` (split into the sequential `if` blocks of the
Python `MOUSEBUTTONDOWN` handler, composed in source order), and the per-frame
idle/sleep check as `idle_check`.  Pixel coordinates and ticks are `Int`
(Python ints), brightness/volume are `ℚ` (Python floats here only ever hold
exact small fractions `k/200`, `k/100`).  `pygame.Rect.collidepoint` is
half-open membership: `left ≤ x < left + w ∧ top ≤ y < top + h`.
-/

/-- Window / screen layout constants from the configuration section. -/
def WIN_W : Int := 600

def WIN_H : Int := 400

def SCREEN_W : Int := 460

def SCREEN_H : Int := 260

def SCREEN_X : Int := (WIN_W - SCREEN_W) / 2

def SCREEN_Y : Int := 70

def ICON_SIZE : Int := 70

def ICON_SPACING : Int := 85

def ICON_START_X : Int := SCREEN_X + 30

def ICON_START_Y : Int := SCREEN_Y + 50

/-- A pygame rectangle: origin plus width/height. -/
structure Rect where
  x : Int
  y : Int
  w : Int
  h : Int
deriving DecidableEq, Repr

/-- `pygame.Rect.collidepoint`: a point on the right or bottom edge is outside. -/
def Rect.collidepoint (r : Rect) (px py : Int) : Bool :=
  decide (r.x ≤ px) && decide (px < r.x + r.w) &&
  decide (r.y ≤ py) && decide (py < r.y + r.h)

/-- One entry of the icon catalogs (emoji is render-only; we keep label and id). -/
structure Icon where
  label : String
  id : String
deriving DecidableEq, Repr

/-- The 12 home-menu icons (`ICONS` in the source). -/
def ICONS : List Icon :=
  [⟨"Games", "games"⟩, ⟨"eShop", "eshop"⟩, ⟨"Album", "album"⟩,
   ⟨"Settings", "settings"⟩, ⟨"News", "news"⟩, ⟨"Profile", "profile"⟩,
   ⟨"Themes", "themes"⟩, ⟨"Stats", "stats"⟩, ⟨"Controllers", "controllers"⟩,
   ⟨"System", "system"⟩, ⟨"Data", "data"⟩, ⟨"Help", "help"⟩]

/-- The 5 settings sub-icons (`SETTINGS_ICONS` in the source). -/
def SETTINGS_ICONS : List Icon :=
  [⟨"Brightness", "brightness"⟩, ⟨"Volume", "volume"⟩, ⟨"Bluetooth", "bluetooth"⟩,
   ⟨"Calibration", "calibration"⟩, ⟨"Internet", "internet"⟩]

/-- `get_icon_rect(index, start_x, start_y, spacing, cols)`:
`row = index // cols`, `col = index % cols`, rectangle of side `ICON_SIZE`. -/
def get_icon_rect (index : Nat) (start_x start_y spacing : Int) (cols : Nat) : Rect :=
  let row : Nat := index / cols
  let col : Nat := index % cols
  ⟨start_x + (col : Int) * spacing, start_y + (row : Int) * spacing, ICON_SIZE, ICON_SIZE⟩

/-- `get_icon_rect(i)` with the default arguments, as used for the home grid. -/
def get_icon_rect_home (index : Nat) : Rect :=
  get_icon_rect index ICON_START_X ICON_START_Y ICON_SPACING 6

/-- The module-level mutable state of `nx.py` (loop-local drag flags included). -/
structure SimState where
  simulation_on : Bool
  selected_icon : Option Nat
  hovered_icon : Option Int
  power_pressed : Bool
  current_screen : String
  brightness : ℚ
  volume_level : ℚ
  album_images : List (Nat × Nat × Nat)
  detached_joycons : Bool
  locked : Bool
  lock_time : Int
  dragging_brightness : Bool
  dragging_volume : Bool
deriving DecidableEq, Repr

/-- The initial assignments of the module-level state. -/
def initState : SimState :=
  { simulation_on := true
    selected_icon := none
    hovered_icon := none
    power_pressed := false
    current_screen := "home"
    brightness := 1
    volume_level := 7/10
    album_images := []
    detached_joycons := true
    locked := false
    lock_time := 0
    dragging_brightness := false
    dragging_volume := false }

/-- The left joy-con zone `Rect(20, 100, 80, 200)` used for the toggle. -/
def joycon_rect : Rect := ⟨20, 100, 80, 200⟩

/-- The profile button `Rect(15, 5, 40, 40)`. -/
def profile_rect : Rect := ⟨15, 5, 40, 40⟩

/-- The brightness-slider drag-start zone `Rect(SCREEN_X + 20, SCREEN_Y + 200, 200, 20)`. -/
def brightness_rect : Rect := ⟨SCREEN_X + 20, SCREEN_Y + 200, 200, 20⟩

/-- The volume-slider drag-start zone `Rect(60, WIN_H - 35, 100, 20)`. -/
def volume_rect : Rect := ⟨60, WIN_H - 35, 100, 20⟩

/-- The home button `Rect(WIN_W//2 - 25 - 9, WIN_H - 25 - 9, 36, 36)`. -/
def home_btn : Rect := ⟨WIN_W / 2 - 25 - 9, WIN_H - 25 - 9, 36, 36⟩

/-- The power button `Rect(WIN_W - 100, WIN_H - 45, 40, 40)`. -/
def power_btn : Rect := ⟨WIN_W - 100, WIN_H - 45, 40, 40⟩

/-- The `for i in range(len(ICONS)) ... break` scan over home icons: the first
index whose rectangle contains the point. -/
def icon_scan (mx my : Int) : Option Nat :=
  (List.range ICONS.length).find? fun i => (get_icon_rect_home i).collidepoint mx my

/-- The settings sub-icon scan (hover uses the same rectangles as the click
handler: `get_icon_rect(i, SCREEN_X + 40, SCREEN_Y + 80, 90, 3)`). -/
def settings_scan (mx my : Int) : Option Nat :=
  (List.range SETTINGS_ICONS.length).find? fun i =>
    (get_icon_rect i (SCREEN_X + 40) (SCREEN_Y + 80) 90 3).collidepoint mx my

/-- `MOUSEBUTTONDOWN` block: joy-con toggle (fires only while detached). -/
def joycon_stage (mx my : Int) (s : SimState) : SimState :=
  if s.detached_joycons && joycon_rect.collidepoint mx my then
    { s with detached_joycons := !s.detached_joycons }
  else s

/-- `MOUSEBUTTONDOWN` block: profile click. -/
def profile_stage (mx my : Int) (s : SimState) : SimState :=
  if profile_rect.collidepoint mx my then
    { s with current_screen := "profile" }
  else s

/-- `MOUSEBUTTONDOWN` block: home-icon scan / settings sub-icon scan.  The
settings branch only prints, so it is the identity on the state. -/
def icon_stage (mx my : Int) (s : SimState) : SimState :=
  if s.current_screen == "home" then
    match icon_scan mx my with
    | some i =>
        { s with selected_icon := some i
                 current_screen := (ICONS.getD i ⟨"", ""⟩).id }
    | none => s
  else s

/-- `MOUSEBUTTONDOWN` block: brightness-slider drag start (settings screen only). -/
def bright_drag_stage (mx my : Int) (s : SimState) : SimState :=
  if s.current_screen == "settings" && brightness_rect.collidepoint mx my then
    { s with dragging_brightness := true }
  else s

/-- `MOUSEBUTTONDOWN` block: volume-slider drag start (bottom bar, any screen). -/
def vol_drag_stage (mx my : Int) (s : SimState) : SimState :=
  if volume_rect.collidepoint mx my then
    { s with dragging_volume := true }
  else s

/-- `MOUSEBUTTONDOWN` block: home button. -/
def homebtn_stage (mx my : Int) (s : SimState) : SimState :=
  if home_btn.collidepoint mx my then
    { s with current_screen := "home", selected_icon := none }
  else s

/-- `MOUSEBUTTONDOWN` block: power button press. -/
def power_stage (mx my : Int) (s : SimState) : SimState :=
  if power_btn.collidepoint mx my then
    { s with power_pressed := true }
  else s

/-- The whole `MOUSEBUTTONDOWN` handler: while locked the click only unlocks
(`continue` skips everything else); otherwise the seven blocks run in source
order, each an independent `if`. -/
def handle_mousedown (mx my : Int) (s : SimState) : SimState :=
  if s.locked then
    { s with locked := false }
  else
    power_stage mx my (homebtn_stage mx my (vol_drag_stage mx my
      (bright_drag_stage mx my (icon_stage mx my
        (profile_stage mx my (joycon_stage mx my s))))))

/-- The `MOUSEBUTTONUP` handler: clear both drag flags; if the power button was
pressed and the release is on it, toggle `simulation_on` and set
`locked = not simulation_on` (evaluated after the toggle, i.e. the old value). -/
def handle_mouseup (mx my : Int) (s : SimState) : SimState :=
  let s1 := { s with dragging_brightness := false, dragging_volume := false }
  if s1.power_pressed then
    if power_btn.collidepoint mx my then
      { s1 with simulation_on := !s1.simulation_on
                locked := s1.simulation_on
                power_pressed := false }
    else { s1 with power_pressed := false }
  else s1

/-- `MOUSEMOTION` block: hover recomputation over the home icons (index `i`)
or the settings icons (index `i + 100`); only assigns on a match. -/
def hover_icons_stage (mx my : Int) (s : SimState) : SimState :=
  if s.current_screen == "home" then
    match icon_scan mx my with
    | some i => { s with hovered_icon := some (i : Int) }
    | none => s
  else if s.current_screen == "settings" then
    match settings_scan mx my with
    | some i => { s with hovered_icon := some ((i : Int) + 100) }
    | none => s
  else s

/-- `MOUSEMOTION` block: the profile button overrides hover with `-1`. -/
def hover_profile_stage (mx my : Int) (s : SimState) : SimState :=
  if profile_rect.collidepoint mx my then
    { s with hovered_icon := some (-1) }
  else s

/-- `MOUSEMOTION` block: brightness drag update,
`brightness = max(0, min(200, mx - SCREEN_X - 20)) / 200`. -/
def bright_motion_stage (mx my : Int) (s : SimState) : SimState :=
  if s.dragging_brightness then
    { s with brightness := ((max 0 (min 200 (mx - SCREEN_X - 20)) : Int) : ℚ) / 200 }
  else s

/-- `MOUSEMOTION` block: volume drag update,
`volume_level = max(0, min(100, mx - 60)) / 100`. -/
def vol_motion_stage (mx my : Int) (s : SimState) : SimState :=
  if s.dragging_volume then
    { s with volume_level := ((max 0 (min 100 (mx - 60)) : Int) : ℚ) / 100 }
  else s

/-- The `MOUSEMOTION` handler: hover recomputation (home icons, settings icons
offset by 100, profile overrides with `-1`), then the two slider drags. -/
def handle_mousemotion (mx my : Int) (s : SimState) : SimState :=
  vol_motion_stage mx my (bright_motion_stage mx my
    (hover_profile_stage mx my (hover_icons_stage mx my s)))

/-- The `KEYDOWN`/`K_c` capture handler: append a (random) color while powered
on and unlocked.  The color is the event's payload in this model. -/
def handle_keydown_c (color : Nat × Nat × Nat) (s : SimState) : SimState :=
  if s.simulation_on && !s.locked then
    { s with album_images := s.album_images ++ [color] }
  else s

/-- Abstract input events of the main loop (QUIT only exits; not modelled). -/
inductive Event where
  | keydown_c (color : Nat × Nat × Nat)
  | mousebuttondown (mx my : Int)
  | mousebuttonup (mx my : Int)
  | mousemotion (mx my : Int)
deriving DecidableEq, Repr

/-- Dispatch of one event, as in the `for event in pygame.event.get()` body. -/
def handle_event : Event → SimState → SimState
  | .keydown_c c => handle_keydown_c c
  | .mousebuttondown mx my => handle_mousedown mx my
  | .mousebuttonup mx my => handle_mouseup mx my
  | .mousemotion mx my => handle_mousemotion mx my

/-- The per-frame sleep check: while powered on and unlocked, once
`ticks - lock_time > 30000` the device locks and `lock_time` is set to `ticks`. -/
def idle_check (ticks : Int) (s : SimState) : SimState :=
  if s.simulation_on && !s.locked && decide (ticks - s.lock_time > 30000) then
    { s with locked := true, lock_time := ticks }
  else s

/-- One loop iteration: `hovered_icon = None`, drain the event batch in order,
then the sleep check at the frame's tick count. -/
def run_frame (events : List Event) (ticks : Int) (s : SimState) : SimState :=
  idle_check ticks (events.foldl (fun t e => handle_event e t) { s with hovered_icon := none })

/-- A run of consecutive frames, each a batch of events plus its tick sample. -/
def run_frames (frames : List (List Event × Int)) (s : SimState) : SimState :=
  frames.foldl (fun t f => run_frame f.1 f.2 t) s

/-! ### Geometry lemmas -/

theorem collidepoint_iff (r : Rect) (px py : Int) :
    r.collidepoint px py = true ↔
      r.x ≤ px ∧ px < r.x + r.w ∧ r.y ≤ py ∧ py < r.y + r.h := by
  simp [Rect.collidepoint, and_assoc]

theorem collidepoint_false_iff (r : Rect) (px py : Int) :
    r.collidepoint px py = false ↔
      ¬(r.x ≤ px ∧ px < r.x + r.w ∧ r.y ≤ py ∧ py < r.y + r.h) := by
  rw [← collidepoint_iff]
  cases h : r.collidepoint px py <;> simp

theorem joycon_rect_mem {mx my : Int} :
    joycon_rect.collidepoint mx my = true ↔ 20 ≤ mx ∧ mx < 100 ∧ 100 ≤ my ∧ my < 300 := by
  rw [collidepoint_iff]; simp [joycon_rect]

theorem joycon_rect_not_mem {mx my : Int} (h : mx < 20 ∨ 100 ≤ mx ∨ my < 100 ∨ 300 ≤ my) :
    joycon_rect.collidepoint mx my = false := by
  rw [collidepoint_false_iff]; simp [joycon_rect]
  try omega

theorem profile_rect_mem {mx my : Int} :
    profile_rect.collidepoint mx my = true ↔ 15 ≤ mx ∧ mx < 55 ∧ 5 ≤ my ∧ my < 45 := by
  rw [collidepoint_iff]; simp [profile_rect]

theorem profile_rect_not_mem {mx my : Int} (h : mx < 15 ∨ 55 ≤ mx ∨ my < 5 ∨ 45 ≤ my) :
    profile_rect.collidepoint mx my = false := by
  rw [collidepoint_false_iff]; simp [profile_rect]
  try omega

theorem brightness_rect_mem {mx my : Int} :
    brightness_rect.collidepoint mx my = true ↔ 90 ≤ mx ∧ mx < 290 ∧ 270 ≤ my ∧ my < 290 := by
  rw [collidepoint_iff]
  simp [brightness_rect, SCREEN_X, SCREEN_Y, WIN_W, SCREEN_W]
  try omega

theorem brightness_rect_not_mem {mx my : Int} (h : mx < 90 ∨ 290 ≤ mx ∨ my < 270 ∨ 290 ≤ my) :
    brightness_rect.collidepoint mx my = false := by
  rw [collidepoint_false_iff]
  simp [brightness_rect, SCREEN_X, SCREEN_Y, WIN_W, SCREEN_W]
  try omega

theorem volume_rect_mem {mx my : Int} :
    volume_rect.collidepoint mx my = true ↔ 60 ≤ mx ∧ mx < 160 ∧ 365 ≤ my ∧ my < 385 := by
  rw [collidepoint_iff]; simp [volume_rect, WIN_H]
  try omega

theorem volume_rect_not_mem {mx my : Int} (h : mx < 60 ∨ 160 ≤ mx ∨ my < 365 ∨ 385 ≤ my) :
    volume_rect.collidepoint mx my = false := by
  rw [collidepoint_false_iff]; simp [volume_rect, WIN_H]
  try omega

theorem home_btn_mem {mx my : Int} :
    home_btn.collidepoint mx my = true ↔ 266 ≤ mx ∧ mx < 302 ∧ 366 ≤ my ∧ my < 402 := by
  rw [collidepoint_iff]; simp [home_btn, WIN_W, WIN_H]
  try omega

theorem home_btn_not_mem {mx my : Int} (h : mx < 266 ∨ 302 ≤ mx ∨ my < 366 ∨ 402 ≤ my) :
    home_btn.collidepoint mx my = false := by
  rw [collidepoint_false_iff]; simp [home_btn, WIN_W, WIN_H]
  try omega

theorem power_btn_mem {mx my : Int} :
    power_btn.collidepoint mx my = true ↔ 500 ≤ mx ∧ mx < 540 ∧ 355 ≤ my ∧ my < 395 := by
  rw [collidepoint_iff]; simp [power_btn, WIN_W, WIN_H]
  try omega

theorem power_btn_not_mem {mx my : Int} (h : mx < 500 ∨ 540 ≤ mx ∨ my < 355 ∨ 395 ≤ my) :
    power_btn.collidepoint mx my = false := by
  rw [collidepoint_false_iff]; simp [power_btn, WIN_W, WIN_H]
  try omega

/-- Membership in home icon rectangle `i` spelled out in coordinates. -/
theorem icon_rect_home_mem {i : Nat} {mx my : Int} :
    (get_icon_rect_home i).collidepoint mx my = true ↔
      100 + (i % 6 : Nat) * 85 ≤ mx ∧ mx < 100 + (i % 6 : Nat) * 85 + 70 ∧
      120 + (i / 6 : Nat) * 85 ≤ my ∧ my < 120 + (i / 6 : Nat) * 85 + 70 := by
  rw [collidepoint_iff]
  simp [get_icon_rect_home, get_icon_rect, ICON_START_X, ICON_START_Y, ICON_SPACING,
    ICON_SIZE, SCREEN_X, SCREEN_Y, WIN_W, SCREEN_W]
  try omega

/-- Any point inside home icon rectangle `i < 12` lies in the grid's bounding box. -/
theorem icon_home_bounds {i : Nat} {mx my : Int} (hi : i < 12)
    (h : (get_icon_rect_home i).collidepoint mx my = true) :
    100 ≤ mx ∧ mx < 595 ∧ 120 ≤ my ∧ my < 275 := by
  rw [icon_rect_home_mem] at h
  omega

/-! ### `find?` and scan lemmas -/

/-- `find?` returns the unique index satisfying the predicate. -/
theorem find?_eq_some_of_unique {p : Nat → Bool} {a : Nat} :
    ∀ l : List Nat, a ∈ l → p a = true → (∀ b ∈ l, p b = true → b = a) →
      l.find? p = some a
  | [], ha, _, _ => absurd ha (List.not_mem_nil a)
  | x :: xs, ha, hp, huniq => by
    by_cases hx : p x = true
    · have hxa : x = a := huniq x (List.mem_cons_self x xs) hx
      subst hxa
      exact List.find?_cons_of_pos _ hx
    · have hx' : p x = false := by
        cases hpx : p x
        · rfl
        · exact absurd hpx hx
      rw [List.find?_cons_of_neg _ (by simp [hx'])]
      have ha' : a ∈ xs := by
        rcases List.mem_cons.mp ha with h | h
        · rw [h] at hp; exact absurd hp hx
        · exact h
      exact find?_eq_some_of_unique xs ha' hp
        (fun b hb hpb => huniq b (List.mem_cons_of_mem _ hb) hpb)

/-- The home icon rectangles are pairwise disjoint, so a point inside
rectangle `i` makes the scan return exactly `i`. -/
theorem icon_scan_eq_some {i : Nat} {mx my : Int} (hi : i < 12)
    (hcol : (get_icon_rect_home i).collidepoint mx my = true) :
    icon_scan mx my = some i := by
  have hlen : ICONS.length = 12 := rfl
  unfold icon_scan
  rw [hlen]
  apply find?_eq_some_of_unique
  · exact List.mem_range.mpr hi
  · exact hcol
  · intro j hj hpj
    have hj12 : j < 12 := List.mem_range.mp hj
    rw [icon_rect_home_mem] at hcol hpj
    omega

/-- If the point misses every home icon rectangle, the scan returns `none`. -/
theorem icon_scan_eq_none {mx my : Int}
    (h : ∀ i : Nat, i < 12 → (get_icon_rect_home i).collidepoint mx my = false) :
    icon_scan mx my = none := by
  have hlen : ICONS.length = 12 := rfl
  unfold icon_scan
  rw [hlen, List.find?_eq_none]
  intro i hi
  simp [h i (List.mem_range.mp hi)]

/-- Points outside the home grid's bounding box miss every icon rectangle. -/
theorem icon_scan_eq_none_of_outside {mx my : Int}
    (h : mx < 100 ∨ 595 ≤ mx ∨ my < 120 ∨ 275 ≤ my) :
    icon_scan mx my = none := by
  apply icon_scan_eq_none
  intro i hi
  cases hc : (get_icon_rect_home i).collidepoint mx my
  · rfl
  · rw [icon_rect_home_mem] at hc
    omega

/-! ### Stage characterizations -/

theorem joycon_stage_miss {mx my : Int} {s : SimState}
    (h : joycon_rect.collidepoint mx my = false) : joycon_stage mx my s = s := by
  unfold joycon_stage; rw [h]; simp

theorem joycon_stage_hit {mx my : Int} {s : SimState}
    (hd : s.detached_joycons = true) (h : joycon_rect.collidepoint mx my = true) :
    joycon_stage mx my s = { s with detached_joycons := false } := by
  unfold joycon_stage; rw [hd, h]; simp

theorem profile_stage_miss {mx my : Int} {s : SimState}
    (h : profile_rect.collidepoint mx my = false) : profile_stage mx my s = s := by
  unfold profile_stage; rw [h]; simp

theorem profile_stage_hit {mx my : Int} {s : SimState}
    (h : profile_rect.collidepoint mx my = true) :
    profile_stage mx my s = { s with current_screen := "profile" } := by
  unfold profile_stage; rw [h]; simp

theorem icon_stage_of_home {mx my : Int} {s : SimState} {i : Nat}
    (hs : s.current_screen = "home") (h : icon_scan mx my = some i) :
    icon_stage mx my s =
      { s with selected_icon := some i,
               current_screen := (ICONS.getD i ⟨"", ""⟩).id } := by
  unfold icon_stage; rw [hs, h]; simp

theorem icon_stage_none {mx my : Int} {s : SimState}
    (h : icon_scan mx my = none) : icon_stage mx my s = s := by
  unfold icon_stage; rw [h]; split <;> rfl

theorem icon_stage_not_home {mx my : Int} {s : SimState}
    (hs : (s.current_screen == "home") = false) : icon_stage mx my s = s := by
  unfold icon_stage; rw [hs]; simp

theorem bright_drag_stage_miss {mx my : Int} {s : SimState}
    (h : brightness_rect.collidepoint mx my = false) : bright_drag_stage mx my s = s := by
  unfold bright_drag_stage; rw [h]; simp

theorem bright_drag_stage_hit {mx my : Int} {s : SimState}
    (hs : s.current_screen = "settings") (h : brightness_rect.collidepoint mx my = true) :
    bright_drag_stage mx my s = { s with dragging_brightness := true } := by
  unfold bright_drag_stage; rw [hs, h]; simp

theorem vol_drag_stage_miss {mx my : Int} {s : SimState}
    (h : volume_rect.collidepoint mx my = false) : vol_drag_stage mx my s = s := by
  unfold vol_drag_stage; rw [h]; simp

theorem homebtn_stage_miss {mx my : Int} {s : SimState}
    (h : home_btn.collidepoint mx my = false) : homebtn_stage mx my s = s := by
  unfold homebtn_stage; rw [h]; simp

theorem homebtn_stage_hit {mx my : Int} {s : SimState}
    (h : home_btn.collidepoint mx my = true) :
    homebtn_stage mx my s = { s with current_screen := "home", selected_icon := none } := by
  unfold homebtn_stage; rw [h]; simp

theorem power_stage_miss {mx my : Int} {s : SimState}
    (h : power_btn.collidepoint mx my = false) : power_stage mx my s = s := by
  unfold power_stage; rw [h]; simp

theorem power_stage_hit {mx my : Int} {s : SimState}
    (h : power_btn.collidepoint mx my = true) :
    power_stage mx my s = { s with power_pressed := true } := by
  unfold power_stage; rw [h]; simp

theorem bright_drag_stage_screen (mx my : Int) (s : SimState) :
    (bright_drag_stage mx my s).current_screen = s.current_screen := by
  unfold bright_drag_stage; split <;> rfl

theorem bright_drag_stage_selected (mx my : Int) (s : SimState) :
    (bright_drag_stage mx my s).selected_icon = s.selected_icon := by
  unfold bright_drag_stage; split <;> rfl

theorem vol_drag_stage_screen (mx my : Int) (s : SimState) :
    (vol_drag_stage mx my s).current_screen = s.current_screen := by
  unfold vol_drag_stage; split <;> rfl

theorem vol_drag_stage_selected (mx my : Int) (s : SimState) :
    (vol_drag_stage mx my s).selected_icon = s.selected_icon := by
  unfold vol_drag_stage; split <;> rfl

theorem vol_drag_stage_detached (mx my : Int) (s : SimState) :
    (vol_drag_stage mx my s).detached_joycons = s.detached_joycons := by
  unfold vol_drag_stage; split <;> rfl

theorem vol_drag_stage_dragbright (mx my : Int) (s : SimState) :
    (vol_drag_stage mx my s).dragging_brightness = s.dragging_brightness := by
  unfold vol_drag_stage; split <;> rfl

theorem power_stage_screen (mx my : Int) (s : SimState) :
    (power_stage mx my s).current_screen = s.current_screen := by
  unfold power_stage; split <;> rfl

theorem power_stage_selected (mx my : Int) (s : SimState) :
    (power_stage mx my s).selected_icon = s.selected_icon := by
  unfold power_stage; split <;> rfl

theorem power_stage_detached (mx my : Int) (s : SimState) :
    (power_stage mx my s).detached_joycons = s.detached_joycons := by
  unfold power_stage; split <;> rfl

theorem power_stage_dragbright (mx my : Int) (s : SimState) :
    (power_stage mx my s).dragging_brightness = s.dragging_brightness := by
  unfold power_stage; split <;> rfl

theorem homebtn_stage_detached (mx my : Int) (s : SimState) :
    (homebtn_stage mx my s).detached_joycons = s.detached_joycons := by
  unfold homebtn_stage; split <;> rfl

theorem homebtn_stage_dragbright (mx my : Int) (s : SimState) :
    (homebtn_stage mx my s).dragging_brightness = s.dragging_brightness := by
  unfold homebtn_stage; split <;> rfl

/-- A click while locked only clears the lock (`continue`). -/
theorem mousedown_locked {mx my : Int} {s : SimState} (h : s.locked = true) :
    handle_mousedown mx my s = { s with locked := false } := by
  unfold handle_mousedown; rw [h]; simp

/-! ### Per-stage projection lemmas (each stage writes only its own fields) -/

theorem joycon_stage_lock_time (mx my : Int) (s : SimState) :
    (joycon_stage mx my s).lock_time = s.lock_time := by
  unfold joycon_stage; split <;> rfl

theorem joycon_stage_hovered (mx my : Int) (s : SimState) :
    (joycon_stage mx my s).hovered_icon = s.hovered_icon := by
  unfold joycon_stage; split <;> rfl

theorem joycon_stage_screen (mx my : Int) (s : SimState) :
    (joycon_stage mx my s).current_screen = s.current_screen := by
  unfold joycon_stage; split <;> rfl

theorem joycon_stage_selected (mx my : Int) (s : SimState) :
    (joycon_stage mx my s).selected_icon = s.selected_icon := by
  unfold joycon_stage; split <;> rfl

/-- With the joy-cons attached the toggle's guard is false: the stage is a no-op. -/
theorem joycon_stage_of_attached {mx my : Int} {s : SimState}
    (h : s.detached_joycons = false) : joycon_stage mx my s = s := by
  unfold joycon_stage; rw [h]; simp

theorem profile_stage_lock_time (mx my : Int) (s : SimState) :
    (profile_stage mx my s).lock_time = s.lock_time := by
  unfold profile_stage; split <;> rfl

theorem profile_stage_hovered (mx my : Int) (s : SimState) :
    (profile_stage mx my s).hovered_icon = s.hovered_icon := by
  unfold profile_stage; split <;> rfl

theorem profile_stage_detached (mx my : Int) (s : SimState) :
    (profile_stage mx my s).detached_joycons = s.detached_joycons := by
  unfold profile_stage; split <;> rfl

theorem profile_stage_selected (mx my : Int) (s : SimState) :
    (profile_stage mx my s).selected_icon = s.selected_icon := by
  unfold profile_stage; split <;> rfl

theorem icon_stage_lock_time (mx my : Int) (s : SimState) :
    (icon_stage mx my s).lock_time = s.lock_time := by
  unfold icon_stage; split <;> (try split) <;> rfl

theorem icon_stage_hovered (mx my : Int) (s : SimState) :
    (icon_stage mx my s).hovered_icon = s.hovered_icon := by
  unfold icon_stage; split <;> (try split) <;> rfl

theorem icon_stage_detached (mx my : Int) (s : SimState) :
    (icon_stage mx my s).detached_joycons = s.detached_joycons := by
  unfold icon_stage; split <;> (try split) <;> rfl

theorem bright_drag_stage_lock_time (mx my : Int) (s : SimState) :
    (bright_drag_stage mx my s).lock_time = s.lock_time := by
  unfold bright_drag_stage; split <;> rfl

theorem bright_drag_stage_hovered (mx my : Int) (s : SimState) :
    (bright_drag_stage mx my s).hovered_icon = s.hovered_icon := by
  unfold bright_drag_stage; split <;> rfl

theorem bright_drag_stage_detached (mx my : Int) (s : SimState) :
    (bright_drag_stage mx my s).detached_joycons = s.detached_joycons := by
  unfold bright_drag_stage; split <;> rfl

theorem vol_drag_stage_lock_time (mx my : Int) (s : SimState) :
    (vol_drag_stage mx my s).lock_time = s.lock_time := by
  unfold vol_drag_stage; split <;> rfl

theorem vol_drag_stage_hovered (mx my : Int) (s : SimState) :
    (vol_drag_stage mx my s).hovered_icon = s.hovered_icon := by
  unfold vol_drag_stage; split <;> rfl

theorem homebtn_stage_lock_time (mx my : Int) (s : SimState) :
    (homebtn_stage mx my s).lock_time = s.lock_time := by
  unfold homebtn_stage; split <;> rfl

theorem homebtn_stage_hovered (mx my : Int) (s : SimState) :
    (homebtn_stage mx my s).hovered_icon = s.hovered_icon := by
  unfold homebtn_stage; split <;> rfl

theorem power_stage_lock_time (mx my : Int) (s : SimState) :
    (power_stage mx my s).lock_time = s.lock_time := by
  unfold power_stage; split <;> rfl

theorem power_stage_hovered (mx my : Int) (s : SimState) :
    (power_stage mx my s).hovered_icon = s.hovered_icon := by
  unfold power_stage; split <;> rfl

theorem hover_icons_stage_lock_time (mx my : Int) (s : SimState) :
    (hover_icons_stage mx my s).lock_time = s.lock_time := by
  unfold hover_icons_stage; split <;> (try split) <;> (try split) <;> rfl

theorem hover_icons_stage_detached (mx my : Int) (s : SimState) :
    (hover_icons_stage mx my s).detached_joycons = s.detached_joycons := by
  unfold hover_icons_stage; split <;> (try split) <;> (try split) <;> rfl

theorem hover_icons_stage_dragbright (mx my : Int) (s : SimState) :
    (hover_icons_stage mx my s).dragging_brightness = s.dragging_brightness := by
  unfold hover_icons_stage; split <;> (try split) <;> (try split) <;> rfl

theorem hover_icons_stage_dragvol (mx my : Int) (s : SimState) :
    (hover_icons_stage mx my s).dragging_volume = s.dragging_volume := by
  unfold hover_icons_stage; split <;> (try split) <;> (try split) <;> rfl

theorem hover_icons_stage_brightness (mx my : Int) (s : SimState) :
    (hover_icons_stage mx my s).brightness = s.brightness := by
  unfold hover_icons_stage; split <;> (try split) <;> (try split) <;> rfl

theorem hover_icons_stage_volume (mx my : Int) (s : SimState) :
    (hover_icons_stage mx my s).volume_level = s.volume_level := by
  unfold hover_icons_stage; split <;> (try split) <;> (try split) <;> rfl

theorem hover_profile_stage_lock_time (mx my : Int) (s : SimState) :
    (hover_profile_stage mx my s).lock_time = s.lock_time := by
  unfold hover_profile_stage; split <;> rfl

theorem hover_profile_stage_detached (mx my : Int) (s : SimState) :
    (hover_profile_stage mx my s).detached_joycons = s.detached_joycons := by
  unfold hover_profile_stage; split <;> rfl

theorem hover_profile_stage_dragbright (mx my : Int) (s : SimState) :
    (hover_profile_stage mx my s).dragging_brightness = s.dragging_brightness := by
  unfold hover_profile_stage; split <;> rfl

theorem hover_profile_stage_dragvol (mx my : Int) (s : SimState) :
    (hover_profile_stage mx my s).dragging_volume = s.dragging_volume := by
  unfold hover_profile_stage; split <;> rfl

theorem hover_profile_stage_brightness (mx my : Int) (s : SimState) :
    (hover_profile_stage mx my s).brightness = s.brightness := by
  unfold hover_profile_stage; split <;> rfl

theorem hover_profile_stage_volume (mx my : Int) (s : SimState) :
    (hover_profile_stage mx my s).volume_level = s.volume_level := by
  unfold hover_profile_stage; split <;> rfl

theorem bright_motion_stage_lock_time (mx my : Int) (s : SimState) :
    (bright_motion_stage mx my s).lock_time = s.lock_time := by
  unfold bright_motion_stage; split <;> rfl

theorem bright_motion_stage_detached (mx my : Int) (s : SimState) :
    (bright_motion_stage mx my s).detached_joycons = s.detached_joycons := by
  unfold bright_motion_stage; split <;> rfl

theorem bright_motion_stage_dragvol (mx my : Int) (s : SimState) :
    (bright_motion_stage mx my s).dragging_volume = s.dragging_volume := by
  unfold bright_motion_stage; split <;> rfl

theorem bright_motion_stage_volume (mx my : Int) (s : SimState) :
    (bright_motion_stage mx my s).volume_level = s.volume_level := by
  unfold bright_motion_stage; split <;> rfl

/-- While a brightness drag is active, the motion handler writes the clamped value. -/
theorem bright_motion_stage_hit {mx my : Int} {s : SimState}
    (h : s.dragging_brightness = true) :
    bright_motion_stage mx my s =
      { s with brightness := ((max 0 (min 200 (mx - SCREEN_X - 20)) : Int) : ℚ) / 200 } := by
  unfold bright_motion_stage; rw [h]; simp

theorem vol_motion_stage_lock_time (mx my : Int) (s : SimState) :
    (vol_motion_stage mx my s).lock_time = s.lock_time := by
  unfold vol_motion_stage; split <;> rfl

theorem vol_motion_stage_detached (mx my : Int) (s : SimState) :
    (vol_motion_stage mx my s).detached_joycons = s.detached_joycons := by
  unfold vol_motion_stage; split <;> rfl

theorem vol_motion_stage_brightness (mx my : Int) (s : SimState) :
    (vol_motion_stage mx my s).brightness = s.brightness := by
  unfold vol_motion_stage; split <;> rfl

/-- While a volume drag is active, the motion handler writes the clamped value. -/
theorem vol_motion_stage_hit {mx my : Int} {s : SimState}
    (h : s.dragging_volume = true) :
    vol_motion_stage mx my s =
      { s with volume_level := ((max 0 (min 100 (mx - 60)) : Int) : ℚ) / 100 } := by
  unfold vol_motion_stage; rw [h]; simp

theorem handle_keydown_c_lock_time (c : Nat × Nat × Nat) (s : SimState) :
    (handle_keydown_c c s).lock_time = s.lock_time := by
  unfold handle_keydown_c; split <;> rfl

theorem handle_keydown_c_detached (c : Nat × Nat × Nat) (s : SimState) :
    (handle_keydown_c c s).detached_joycons = s.detached_joycons := by
  unfold handle_keydown_c; split <;> rfl

theorem handle_mouseup_lock_time (mx my : Int) (s : SimState) :
    (handle_mouseup mx my s).lock_time = s.lock_time := by
  simp only [handle_mouseup]
  (repeat' split) <;> rfl

theorem handle_mouseup_detached (mx my : Int) (s : SimState) :
    (handle_mouseup mx my s).detached_joycons = s.detached_joycons := by
  simp only [handle_mouseup]
  (repeat' split) <;> rfl

/-! ### Whole-handler preservation lemmas -/

theorem handle_mousedown_lock_time (mx my : Int) (s : SimState) :
    (handle_mousedown mx my s).lock_time = s.lock_time := by
  unfold handle_mousedown
  split
  · rfl
  · rw [power_stage_lock_time, homebtn_stage_lock_time, vol_drag_stage_lock_time,
      bright_drag_stage_lock_time, icon_stage_lock_time, profile_stage_lock_time,
      joycon_stage_lock_time]

theorem handle_mousemotion_lock_time (mx my : Int) (s : SimState) :
    (handle_mousemotion mx my s).lock_time = s.lock_time := by
  unfold handle_mousemotion
  rw [vol_motion_stage_lock_time, bright_motion_stage_lock_time,
    hover_profile_stage_lock_time, hover_icons_stage_lock_time]

/-- No input handler ever writes `lock_time`; only the sleep check does. -/
theorem handle_event_lock_time (e : Event) (s : SimState) :
    (handle_event e s).lock_time = s.lock_time := by
  cases e with
  | keydown_c c => exact handle_keydown_c_lock_time c s
  | mousebuttondown mx my => exact handle_mousedown_lock_time mx my s
  | mousebuttonup mx my => exact handle_mouseup_lock_time mx my s
  | mousemotion mx my => exact handle_mousemotion_lock_time mx my s

/-- The `MOUSEBUTTONDOWN` handler never writes `hovered_icon`. -/
theorem mousedown_hovered (mx my : Int) (s : SimState) :
    (handle_mousedown mx my s).hovered_icon = s.hovered_icon := by
  unfold handle_mousedown
  split
  · rfl
  · rw [power_stage_hovered, homebtn_stage_hovered, vol_drag_stage_hovered,
      bright_drag_stage_hovered, icon_stage_hovered, profile_stage_hovered,
      joycon_stage_hovered]

theorem handle_mousedown_detached_of_false {mx my : Int} {s : SimState}
    (h : s.detached_joycons = false) :
    (handle_mousedown mx my s).detached_joycons = false := by
  unfold handle_mousedown
  split
  · exact h
  · rw [power_stage_detached, homebtn_stage_detached, vol_drag_stage_detached,
      bright_drag_stage_detached, icon_stage_detached, profile_stage_detached,
      joycon_stage_of_attached h]
    exact h

theorem handle_mousemotion_detached (mx my : Int) (s : SimState) :
    (handle_mousemotion mx my s).detached_joycons = s.detached_joycons := by
  unfold handle_mousemotion
  rw [vol_motion_stage_detached, bright_motion_stage_detached,
    hover_profile_stage_detached, hover_icons_stage_detached]

/-- Once the joy-cons are attached, no single input event detaches them again. -/
theorem handle_event_detached_of_false (e : Event) (s : SimState)
    (h : s.detached_joycons = false) :
    (handle_event e s).detached_joycons = false := by
  cases e with
  | keydown_c c => rw [handle_event, handle_keydown_c_detached]; exact h
  | mousebuttondown mx my => exact handle_mousedown_detached_of_false h
  | mousebuttonup mx my => rw [handle_event, handle_mouseup_detached]; exact h
  | mousemotion mx my => rw [handle_event, handle_mousemotion_detached]; exact h

/-- The sleep check never writes `detached_joycons`. -/
theorem idle_check_detached (t : Int) (s : SimState) :
    (idle_check t s).detached_joycons = s.detached_joycons := by
  unfold idle_check; split <;> rfl

theorem foldl_events_detached_of_false (events : List Event) :
    ∀ s : SimState, s.detached_joycons = false →
      (events.foldl (fun t e => handle_event e t) s).detached_joycons = false := by
  induction events with
  | nil => intro s h; exact h
  | cons e es ih =>
      intro s h
      exact ih _ (handle_event_detached_of_false e s h)

theorem run_frame_detached_of_false (events : List Event) (t : Int) (s : SimState)
    (h : s.detached_joycons = false) :
    (run_frame events t s).detached_joycons = false := by
  unfold run_frame
  rw [idle_check_detached]
  exact foldl_events_detached_of_false events _ h

theorem run_frames_detached_of_false (frames : List (List Event × Int)) :
    ∀ s : SimState, s.detached_joycons = false →
      (run_frames frames s).detached_joycons = false := by
  induction frames with
  | nil => intro s h; exact h
  | cons f fs ih =>
      intro s h
      exact ih _ (run_frame_detached_of_false f.1 f.2 s h)

/-! ### Click characterizations by region -/

/-- An unlocked click on the power button only sets `power_pressed`: every
other handled region is geometrically disjoint from the power rectangle. -/
theorem mousedown_power_region {mx my : Int} {s : SimState}
    (hlk : s.locked = false) (hhit : power_btn.collidepoint mx my = true) :
    handle_mousedown mx my s = { s with power_pressed := true } := by
  obtain ⟨h1, h2, h3, h4⟩ := power_btn_mem.mp hhit
  unfold handle_mousedown
  rw [if_neg (by simp [hlk]),
    joycon_stage_miss (joycon_rect_not_mem (by omega)),
    profile_stage_miss (profile_rect_not_mem (by omega)),
    icon_stage_none (icon_scan_eq_none_of_outside (by omega)),
    bright_drag_stage_miss (brightness_rect_not_mem (by omega)),
    vol_drag_stage_miss (volume_rect_not_mem (by omega)),
    homebtn_stage_miss (home_btn_not_mem (by omega)),
    power_stage_hit hhit]

/-- An unlocked click on the home button goes back home and clears the
selection; every other handled region is disjoint from the home button. -/
theorem mousedown_home_button {mx my : Int} {s : SimState}
    (hlk : s.locked = false) (hhit : home_btn.collidepoint mx my = true) :
    handle_mousedown mx my s = { s with current_screen := "home", selected_icon := none } := by
  obtain ⟨h1, h2, h3, h4⟩ := home_btn_mem.mp hhit
  unfold handle_mousedown
  rw [if_neg (by simp [hlk]),
    joycon_stage_miss (joycon_rect_not_mem (by omega)),
    profile_stage_miss (profile_rect_not_mem (by omega)),
    icon_stage_none (icon_scan_eq_none_of_outside (by omega)),
    bright_drag_stage_miss (brightness_rect_not_mem (by omega)),
    vol_drag_stage_miss (volume_rect_not_mem (by omega)),
    homebtn_stage_hit hhit,
    power_stage_miss (power_btn_not_mem (by omega))]

/-- An unlocked click on the profile button switches to the profile screen and
changes nothing else; every other handled region is disjoint from it. -/
theorem mousedown_profile {mx my : Int} {s : SimState}
    (hlk : s.locked = false) (hhit : profile_rect.collidepoint mx my = true) :
    handle_mousedown mx my s = { s with current_screen := "profile" } := by
  obtain ⟨h1, h2, h3, h4⟩ := profile_rect_mem.mp hhit
  unfold handle_mousedown
  rw [if_neg (by simp [hlk]),
    joycon_stage_miss (joycon_rect_not_mem (by omega)),
    profile_stage_hit hhit]
  have hnh : (({ s with current_screen := "profile" } : SimState).current_screen == "home") = false := rfl
  rw [icon_stage_not_home hnh,
    bright_drag_stage_miss (brightness_rect_not_mem (by omega)),
    vol_drag_stage_miss (volume_rect_not_mem (by omega)),
    homebtn_stage_miss (home_btn_not_mem (by omega)),
    power_stage_miss (power_btn_not_mem (by omega))]

/-- Releasing on the power button with `power_pressed` set clears the drag
flags, toggles `simulation_on` and sets `locked` to the OLD power state. -/
theorem mouseup_power {mx my : Int} {s : SimState}
    (hp : s.power_pressed = true) (hhit : power_btn.collidepoint mx my = true) :
    handle_mouseup mx my s =
      { s with dragging_brightness := false, dragging_volume := false,
               simulation_on := !s.simulation_on, locked := s.simulation_on,
               power_pressed := false } := by
  simp [handle_mouseup, hp, hhit]

/-! ### Claims -/

/-- C1: for every valid icon index `i < 12`, a click inside `get_icon_rect(i)`
while powered on, unlocked and on the home screen sets `current_screen` to
exactly `ICONS[i].id` and `selected_icon` to `i`. -/
theorem C1_home_icon_click (s : SimState) (i : Nat) (mx my : Int) (hi : i < 12)
    (hpow : s.simulation_on = true) (hlk : s.locked = false)
    (hscr : s.current_screen = "home")
    (hhit : (get_icon_rect_home i).collidepoint mx my = true) :
    (handle_mousedown mx my s).current_screen = (ICONS.getD i ⟨"", ""⟩).id ∧
    (handle_mousedown mx my s).selected_icon = some i := by
  obtain ⟨hx1, hx2, hy1, hy2⟩ := icon_home_bounds hi hhit
  unfold handle_mousedown
  rw [if_neg (by simp [hlk]),
    joycon_stage_miss (joycon_rect_not_mem (by omega)),
    profile_stage_miss (profile_rect_not_mem (by omega)),
    icon_stage_of_home hscr (icon_scan_eq_some hi hhit),
    homebtn_stage_miss (home_btn_not_mem (by omega))]
  constructor
  · rw [power_stage_screen, vol_drag_stage_screen, bright_drag_stage_screen]
  · rw [power_stage_selected, vol_drag_stage_selected, bright_drag_stage_selected]

/-- Witness for C1: clicking (190, 130), inside icon rectangle 1, from the
initial state opens the eShop screen and selects icon 1. -/
theorem C1_home_icon_click_witness :
    (handle_mousedown 190 130 initState).current_screen = (ICONS.getD 1 ⟨"", ""⟩).id ∧
    (handle_mousedown 190 130 initState).selected_icon = some 1 :=
  C1_home_icon_click initState 1 190 130 (by decide) rfl rfl rfl (by decide)

/-- C2 (counterexample): releasing the power button while powered on, unlocked
and on the home screen turns the device off but sets `locked` to TRUE — the
claim states `locked` becomes false. -/
theorem C2_power_off_counterexample :
    (handle_mouseup 510 370 { initState with power_pressed := true }).simulation_on = false ∧
    (handle_mouseup 510 370 { initState with power_pressed := true }).locked = true :=
  ⟨rfl, rfl⟩

/-- C2 (amended): releasing the power button (pointer-up on the power-button
rectangle with the press latched) while powered on turns the device off,
setting `simulation_on` to false and `locked` to TRUE — the code runs
`locked = not simulation_on` after the toggle. -/
theorem C2_power_off_amended (s : SimState) (mx my : Int)
    (hon : s.simulation_on = true) (hp : s.power_pressed = true)
    (hhit : power_btn.collidepoint mx my = true) :
    (handle_mouseup mx my s).simulation_on = false ∧
    (handle_mouseup mx my s).locked = true := by
  rw [mouseup_power hp hhit]
  refine ⟨?_, hon⟩
  show (!s.simulation_on) = false
  rw [hon]
  rfl

/-- Witness for the amended C2 at the concrete point (510, 370). -/
theorem C2_power_off_amended_witness :
    (handle_mouseup 510 370 { initState with power_pressed := true }).simulation_on = false ∧
    (handle_mouseup 510 370 { initState with power_pressed := true }).locked = true :=
  C2_power_off_amended { initState with power_pressed := true } 510 370 rfl rfl (by decide)

/-- C3 (counterexample): an input event (mouse motion at (0,0)) leaves
`lock_time` at 0, and the sleep check at tick 40001 — which can be less than
30000 ms after that event — still engages the lock.  The idle timer is not
reset by input. -/
theorem C3_idle_reset_counterexample :
    (handle_mousemotion 0 0 initState).lock_time = 0 ∧
    (idle_check 40001 (handle_mousemotion 0 0 initState)).locked = true :=
  ⟨rfl, rfl⟩

/-- C3 (amended): no input handler writes `lock_time` — the idle timer does
NOT reset on input; `lock_time` is updated only when the sleep check engages
the lock: while powered on and unlocked, once `ticks - lock_time > 30000` the
device locks and `lock_time` becomes `ticks`. -/
theorem C3_idle_amended :
    (∀ (e : Event) (s : SimState), (handle_event e s).lock_time = s.lock_time) ∧
    (∀ (s : SimState) (t : Int), s.simulation_on = true → s.locked = false →
      t - s.lock_time > 30000 →
      idle_check t s = { s with locked := true, lock_time := t }) := by
  constructor
  · exact handle_event_lock_time
  · intro s t hon hlk hidle
    unfold idle_check
    rw [if_pos (by simp [hon, hlk, hidle])]

/-- Witness for the amended C3: a concrete motion event preserves `lock_time`,
and the sleep check at tick 40001 locks the initial state. -/
theorem C3_idle_amended_witness :
    (handle_event (Event.mousemotion 0 0) initState).lock_time = initState.lock_time ∧
    idle_check 40001 initState = { initState with locked := true, lock_time := 40001 } :=
  ⟨C3_idle_amended.1 (Event.mousemotion 0 0) initState,
   C3_idle_amended.2 initState 40001 rfl rfl (by decide)⟩

/-- C4 (counterexample): the idle-lock/unlock round-trip changes the idle
timestamp: `lock_time` goes from 0 to 40000 (the tick at which the lock
engaged), contradicting "no other state field has changed". -/
theorem C4_roundtrip_counterexample :
    (handle_mousedown 0 0 (idle_check 40000 initState)).lock_time = 40000 ∧
    initState.lock_time = 0 :=
  ⟨rfl, rfl⟩

/-- C4 (amended): from any Active screen, letting the idle lock engage and
delivering one click returns exactly the starting state except `lock_time`,
which now holds the tick at which the lock engaged (screen, lock flag,
brightness, volume, selection, album, joy-cons all restored). -/
theorem C4_lock_roundtrip_amended (s : SimState) (t mx my : Int)
    (hon : s.simulation_on = true) (hlk : s.locked = false)
    (hidle : t - s.lock_time > 30000) :
    handle_mousedown mx my (idle_check t s) = { s with lock_time := t } := by
  have h1 : idle_check t s = { s with locked := true, lock_time := t } := by
    unfold idle_check
    rw [if_pos (by simp [hon, hlk, hidle])]
  rw [h1, mousedown_locked rfl]
  simp [hlk]

/-- Witness for the amended C4 from the initial state at tick 40000. -/
theorem C4_lock_roundtrip_amended_witness :
    handle_mousedown 0 0 (idle_check 40000 initState) = { initState with lock_time := 40000 } :=
  C4_lock_roundtrip_amended initState 40000 0 0 rfl rfl (by decide)

/-- C5 (counterexample): the point (95, 275) lies in BOTH the joy-con toggle
zone and the brightness-slider zone; a click there on the settings screen
applies BOTH effects — the joy-cons attach AND the brightness drag starts —
contradicting "the lower-priority regions' effects are not applied". -/
theorem C5_priority_counterexample :
    joycon_rect.collidepoint 95 275 = true ∧
    brightness_rect.collidepoint 95 275 = true ∧
    (handle_mousedown 95 275 { initState with current_screen := "settings" }).detached_joycons = false ∧
    (handle_mousedown 95 275 { initState with current_screen := "settings" }).dragging_brightness = true :=
  ⟨rfl, rfl, rfl, rfl⟩

/-- C5 (amended): the click handlers run in source order — lock-unlock
(which swallows the click), joy-con zone, profile, screen icons, sliders,
home, power — but they are NOT mutually exclusive: every matching region's
effect is applied.  A click in the overlap of the joy-con zone and the
brightness slider both attaches the joy-cons and starts the brightness drag. -/
theorem C5_all_matches_fire (s : SimState) (mx my : Int)
    (hlk : s.locked = false) (hd : s.detached_joycons = true)
    (hscr : s.current_screen = "settings")
    (hj : joycon_rect.collidepoint mx my = true)
    (hb : brightness_rect.collidepoint mx my = true) :
    (handle_mousedown mx my s).detached_joycons = false ∧
    (handle_mousedown mx my s).dragging_brightness = true := by
  obtain ⟨hj1, hj2, hj3, hj4⟩ := joycon_rect_mem.mp hj
  obtain ⟨hb1, hb2, hb3, hb4⟩ := brightness_rect_mem.mp hb
  unfold handle_mousedown
  rw [if_neg (by simp [hlk]),
    joycon_stage_hit hd hj,
    profile_stage_miss (profile_rect_not_mem (by omega))]
  have hnh : (({ s with detached_joycons := false } : SimState).current_screen == "home") = false := by
    show (s.current_screen == "home") = false
    rw [hscr]
    rfl
  rw [icon_stage_not_home hnh]
  have hset : ({ s with detached_joycons := false } : SimState).current_screen = "settings" := hscr
  rw [bright_drag_stage_hit hset hb,
    vol_drag_stage_miss (volume_rect_not_mem (by omega)),
    homebtn_stage_miss (home_btn_not_mem (by omega)),
    power_stage_miss (power_btn_not_mem (by omega))]
  exact ⟨rfl, rfl⟩

/-- Witness for the amended C5 at the concrete overlap point (95, 275). -/
theorem C5_all_matches_fire_witness :
    (handle_mousedown 95 275 { initState with current_screen := "settings" }).detached_joycons = false ∧
    (handle_mousedown 95 275 { initState with current_screen := "settings" }).dragging_brightness = true :=
  C5_all_matches_fire { initState with current_screen := "settings" } 95 275 rfl rfl rfl rfl rfl

/-- The motion handler's brightness update while a brightness drag is active:
the hover stages do not touch the drag flags, so the clamped value is written. -/
theorem handle_mousemotion_brightness_of_drag {s : SimState}
    (hb : s.dragging_brightness = true) (mx my : Int) :
    (handle_mousemotion mx my s).brightness =
      ((max 0 (min 200 (mx - SCREEN_X - 20)) : Int) : ℚ) / 200 := by
  unfold handle_mousemotion
  rw [vol_motion_stage_brightness]
  have hdb : (hover_profile_stage mx my (hover_icons_stage mx my s)).dragging_brightness = true := by
    rw [hover_profile_stage_dragbright, hover_icons_stage_dragbright]
    exact hb
  rw [bright_motion_stage_hit hdb]

/-- The motion handler's volume update while a volume drag is active. -/
theorem handle_mousemotion_volume_of_drag {s : SimState}
    (hv : s.dragging_volume = true) (mx my : Int) :
    (handle_mousemotion mx my s).volume_level =
      ((max 0 (min 100 (mx - 60)) : Int) : ℚ) / 100 := by
  unfold handle_mousemotion
  have hdv : (bright_motion_stage mx my (hover_profile_stage mx my
      (hover_icons_stage mx my s))).dragging_volume = true := by
    rw [bright_motion_stage_dragvol, hover_profile_stage_dragvol, hover_icons_stage_dragvol]
    exact hv
  rw [vol_motion_stage_hit hdv]

/-- C6: while a brightness drag is active, a pointer-move sets `brightness` to
a value in [0,1] exactly and the value is monotone non-decreasing in the
pointer's x; likewise, while a volume drag is active, for `volume_level`.
Each part assumes only the drag it is about. -/
theorem C6_clamp_law :
    (∀ (s : SimState) (mx my : Int), s.dragging_brightness = true →
      0 ≤ (handle_mousemotion mx my s).brightness ∧
      (handle_mousemotion mx my s).brightness ≤ 1) ∧
    (∀ (s : SimState) (mx mx2 my my2 : Int), s.dragging_brightness = true →
      mx ≤ mx2 →
      (handle_mousemotion mx my s).brightness ≤ (handle_mousemotion mx2 my2 s).brightness) ∧
    (∀ (s : SimState) (mx my : Int), s.dragging_volume = true →
      0 ≤ (handle_mousemotion mx my s).volume_level ∧
      (handle_mousemotion mx my s).volume_level ≤ 1) ∧
    (∀ (s : SimState) (mx mx2 my my2 : Int), s.dragging_volume = true →
      mx ≤ mx2 →
      (handle_mousemotion mx my s).volume_level ≤ (handle_mousemotion mx2 my2 s).volume_level) := by
  refine ⟨?_, ?_, ?_, ?_⟩
  · intro s mx my hb
    rw [handle_mousemotion_brightness_of_drag hb]
    constructor
    · exact div_nonneg (by exact_mod_cast le_max_left 0 _) (by norm_num)
    · rw [div_le_one (by norm_num)]
      exact_mod_cast max_le (by norm_num) (min_le_left _ _)
  · intro s mx mx2 my my2 hb hle
    rw [handle_mousemotion_brightness_of_drag hb,
      handle_mousemotion_brightness_of_drag hb]
    have h : (max 0 (min 200 (mx - SCREEN_X - 20)) : Int) ≤
        max 0 (min 200 (mx2 - SCREEN_X - 20)) := by omega
    gcongr
  · intro s mx my hv
    rw [handle_mousemotion_volume_of_drag hv]
    constructor
    · exact div_nonneg (by exact_mod_cast le_max_left 0 _) (by norm_num)
    · rw [div_le_one (by norm_num)]
      exact_mod_cast max_le (by norm_num) (min_le_left _ _)
  · intro s mx mx2 my my2 hv hle
    rw [handle_mousemotion_volume_of_drag hv, handle_mousemotion_volume_of_drag hv]
    have h : (max 0 (min 100 (mx - 60)) : Int) ≤ max 0 (min 100 (mx2 - 60)) := by omega
    gcongr

/-- Witness for C6 with a single drag active at a time: a brightness drag at
x = 150 and x = 1000, and a volume drag at the same positions. -/
theorem C6_clamp_law_witness :
    (0 ≤ (handle_mousemotion 150 0 { initState with dragging_brightness := true }).brightness ∧
      (handle_mousemotion 150 0 { initState with dragging_brightness := true }).brightness ≤ 1) ∧
    (handle_mousemotion 150 0 { initState with dragging_brightness := true }).brightness ≤
      (handle_mousemotion 1000 5 { initState with dragging_brightness := true }).brightness ∧
    (0 ≤ (handle_mousemotion 150 0 { initState with dragging_volume := true }).volume_level ∧
      (handle_mousemotion 150 0 { initState with dragging_volume := true }).volume_level ≤ 1) ∧
    (handle_mousemotion 150 0 { initState with dragging_volume := true }).volume_level ≤
      (handle_mousemotion 1000 5 { initState with dragging_volume := true }).volume_level :=
  ⟨C6_clamp_law.1 { initState with dragging_brightness := true } 150 0 rfl,
   C6_clamp_law.2.1 { initState with dragging_brightness := true } 150 1000 0 5 rfl (by decide),
   C6_clamp_law.2.2.1 { initState with dragging_volume := true } 150 0 rfl,
   C6_clamp_law.2.2.2 { initState with dragging_volume := true } 150 1000 0 5 rfl (by decide)⟩


/-- C7: the power round-trip — press and release on the power button (device
turns off), click to clear the lock the power-off set, press and release on
the power button again (device turns back on) — restores power and leaves
`brightness`, `volume_level` and the album sequence exactly as they were. -/
theorem C7_power_roundtrip (s : SimState) (mx my : Int)
    (hon : s.simulation_on = true) (hlk : s.locked = false)
    (hhit : power_btn.collidepoint mx my = true) :
    (handle_mouseup mx my (handle_mousedown mx my s)).simulation_on = false ∧
    (handle_mouseup mx my (handle_mousedown mx my (handle_mousedown mx my
        (handle_mouseup mx my (handle_mousedown mx my s))))).simulation_on = true ∧
    (handle_mouseup mx my (handle_mousedown mx my (handle_mousedown mx my
        (handle_mouseup mx my (handle_mousedown mx my s))))).locked = false ∧
    (handle_mouseup mx my (handle_mousedown mx my (handle_mousedown mx my
        (handle_mouseup mx my (handle_mousedown mx my s))))).brightness = s.brightness ∧
    (handle_mouseup mx my (handle_mousedown mx my (handle_mousedown mx my
        (handle_mouseup mx my (handle_mousedown mx my s))))).volume_level = s.volume_level ∧
    (handle_mouseup mx my (handle_mousedown mx my (handle_mousedown mx my
        (handle_mouseup mx my (handle_mousedown mx my s))))).album_images = s.album_images := by
  have e1 : handle_mousedown mx my s = { s with power_pressed := true } :=
    mousedown_power_region hlk hhit
  have e2 : handle_mouseup mx my { s with power_pressed := true } =
      { s with dragging_brightness := false, dragging_volume := false,
               simulation_on := !s.simulation_on, locked := s.simulation_on,
               power_pressed := false } :=
    mouseup_power rfl hhit
  have e3 : handle_mousedown mx my
      { s with dragging_brightness := false, dragging_volume := false,
               simulation_on := !s.simulation_on, locked := s.simulation_on,
               power_pressed := false } =
      { s with dragging_brightness := false, dragging_volume := false,
               simulation_on := !s.simulation_on, locked := false,
               power_pressed := false } :=
    mousedown_locked hon
  have e4 : handle_mousedown mx my
      { s with dragging_brightness := false, dragging_volume := false,
               simulation_on := !s.simulation_on, locked := false,
               power_pressed := false } =
      { s with dragging_brightness := false, dragging_volume := false,
               simulation_on := !s.simulation_on, locked := false,
               power_pressed := true } :=
    mousedown_power_region rfl hhit
  have e5 : handle_mouseup mx my
      { s with dragging_brightness := false, dragging_volume := false,
               simulation_on := !s.simulation_on, locked := false,
               power_pressed := true } =
      { s with dragging_brightness := false, dragging_volume := false,
               simulation_on := !(!s.simulation_on), locked := !s.simulation_on,
               power_pressed := false } :=
    mouseup_power rfl hhit
  rw [e1, e2, e3, e4, e5]
  refine ⟨?_, ?_, ?_, rfl, rfl, rfl⟩ <;> simp [hon]

/-- Witness for C7 from the initial state at the power-button point (510, 370). -/
theorem C7_power_roundtrip_witness :
    (handle_mouseup 510 370 (handle_mousedown 510 370 initState)).simulation_on = false ∧
    (handle_mouseup 510 370 (handle_mousedown 510 370 (handle_mousedown 510 370
        (handle_mouseup 510 370 (handle_mousedown 510 370 initState))))).simulation_on = true ∧
    (handle_mouseup 510 370 (handle_mousedown 510 370 (handle_mousedown 510 370
        (handle_mouseup 510 370 (handle_mousedown 510 370 initState))))).locked = false ∧
    (handle_mouseup 510 370 (handle_mousedown 510 370 (handle_mousedown 510 370
        (handle_mouseup 510 370 (handle_mousedown 510 370 initState))))).brightness = initState.brightness ∧
    (handle_mouseup 510 370 (handle_mousedown 510 370 (handle_mousedown 510 370
        (handle_mouseup 510 370 (handle_mousedown 510 370 initState))))).volume_level = initState.volume_level ∧
    (handle_mouseup 510 370 (handle_mousedown 510 370 (handle_mousedown 510 370
        (handle_mouseup 510 370 (handle_mousedown 510 370 initState))))).album_images = initState.album_images :=
  C7_power_roundtrip initState 510 370 rfl rfl (by decide)

/-- C8 (counterexample): clicking home icon 0 at (110, 130) changes the screen
to "games" but sets `selected_icon` to `some 0` — it is not reset to `None`
on this screen transition. -/
theorem C8_reset_counterexample :
    (handle_mousedown 110 130 initState).current_screen = "games" ∧
    (handle_mousedown 110 130 initState).selected_icon = some 0 :=
  ⟨rfl, rfl⟩

/-- C8 (amended): only the home-button click resets `selected_icon` to `None`;
a home-icon click sets it to the clicked index (see the C8 counterexample) and
a profile-button click leaves it unchanged; `hovered_icon` is never written by
the click handler (it is recomputed from scratch at the start of each frame). -/
theorem C8_reset_amended :
    (∀ (s : SimState) (mx my : Int), s.locked = false →
      home_btn.collidepoint mx my = true →
      (handle_mousedown mx my s).current_screen = "home" ∧
      (handle_mousedown mx my s).selected_icon = none) ∧
    (∀ (s : SimState) (mx my : Int), s.locked = false →
      profile_rect.collidepoint mx my = true →
      (handle_mousedown mx my s).current_screen = "profile" ∧
      (handle_mousedown mx my s).selected_icon = s.selected_icon) ∧
    (∀ (s : SimState) (mx my : Int),
      (handle_mousedown mx my s).hovered_icon = s.hovered_icon) := by
  refine ⟨?_, ?_, fun s mx my => mousedown_hovered mx my s⟩
  · intro s mx my hlk hhit
    rw [mousedown_home_button hlk hhit]
    exact ⟨rfl, rfl⟩
  · intro s mx my hlk hhit
    rw [mousedown_profile hlk hhit]
    exact ⟨rfl, rfl⟩

/-- Witness for the amended C8: a home-button click at (280, 380) from the
news screen with icon 4 selected goes home and clears the selection. -/
theorem C8_reset_amended_witness :
    (handle_mousedown 280 380 { initState with selected_icon := some 4, current_screen := "news" }).current_screen = "home" ∧
    (handle_mousedown 280 380 { initState with selected_icon := some 4, current_screen := "news" }).selected_icon = none :=
  C8_reset_amended.1 { initState with selected_icon := some 4, current_screen := "news" }
    280 380 rfl (by decide)

/-- C9: joy-con attachment is one-way — the toggle's guard requires
`detached_joycons` to be true, so once any event attaches them, no later
sequence of frames (input batches plus sleep checks) can detach them again. -/
theorem C9_joycon_one_way (frames : List (List Event × Int)) (s : SimState)
    (h : s.detached_joycons = false) :
    (run_frames frames s).detached_joycons = false :=
  run_frames_detached_of_false frames s h

/-- Witness for C9: one frame containing a click inside the joy-con zone,
starting with the joy-cons attached, leaves them attached. -/
theorem C9_joycon_one_way_witness :
    (run_frames [([Event.mousebuttondown 50 150], 100)]
      { initState with detached_joycons := false }).detached_joycons = false :=
  C9_joycon_one_way [([Event.mousebuttondown 50 150], 100)]
    { initState with detached_joycons := false } rfl

/-- C10: navigation is not gated on power — a click while locked clears the
lock even with the device off (leaving it off), and clicks while off and
unlocked still hit-test normally: the home button goes home and clears the
selection, the profile button opens the profile screen. -/
theorem C10_no_power_gate :
    (∀ (s : SimState) (mx my : Int), s.simulation_on = false → s.locked = true →
      (handle_mousedown mx my s).locked = false ∧
      (handle_mousedown mx my s).simulation_on = false) ∧
    (∀ (s : SimState) (mx my : Int), s.simulation_on = false → s.locked = false →
      home_btn.collidepoint mx my = true →
      (handle_mousedown mx my s).current_screen = "home" ∧
      (handle_mousedown mx my s).selected_icon = none) ∧
    (∀ (s : SimState) (mx my : Int), s.simulation_on = false → s.locked = false →
      profile_rect.collidepoint mx my = true →
      (handle_mousedown mx my s).current_screen = "profile") := by
  refine ⟨?_, ?_, ?_⟩
  · intro s mx my hoff hlk
    rw [mousedown_locked hlk]
    exact ⟨rfl, hoff⟩
  · intro s mx my hoff hlk hhit
    rw [mousedown_home_button hlk hhit]
    exact ⟨rfl, rfl⟩
  · intro s mx my hoff hlk hhit
    rw [mousedown_profile hlk hhit]

/-- Witness for C10: with the device off and locked, a click at (5,5) unlocks
it while leaving it off. -/
theorem C10_no_power_gate_witness :
    (handle_mousedown 5 5 { initState with simulation_on := false, locked := true }).locked = false ∧
    (handle_mousedown 5 5 { initState with simulation_on := false, locked := true }).simulation_on = false :=
  C10_no_power_gate.1 { initState with simulation_on := false, locked := true } 5 5 rfl rfl
